import Mathlib

/-!
Verification of the Storage module (src/Storage.py) of the plib repository:
a document-store access layer over RethinkDB.  Python functions are embedded
shallowly as pure Lean functions; the mutable module/instance state they touch
(the global table-name prefix, the server registry, a document's field dict)
is passed and returned explicitly; backend responses (row counts, stored
revisions, attempt outcomes) are parameters; Python exceptions are the error
side of `Except`.
-/

namespace Plib

/-- Python exceptions raised by the Storage module.  `storageException` is
`Storage.StorageException(*args)` (Storage.py line 219); the others are
builtin Python exceptions the code can raise (`ValueError` in `_connection`,
`KeyError` for a missing dict key, `AttributeError` for a missing method,
`NameError` for an undefined variable). -/
inductive StErr where
  | valueError : String → StErr
  | keyError : String → StErr
  | attributeError : String → StErr
  | nameError : String → StErr
  | storageException : List String → StErr
  deriving Repr, DecidableEq

/-! ## Documents

A Python `Document` keeps its record in the dict `self._dData`.  The reserved
revision field `_rev` always holds a string `"<version>-<hash>"` (the version
is a decimal integer and the hash is 32 hex chars, so the split on `-` is
unambiguous); we model the mapping as the list of ordinary fields plus the
parsed content of `_rev`, kept separate because `_revision` repeatedly removes
and re-adds exactly that key.  Field values are a type parameter `V`. -/

structure Doc (V : Type) where
  fields : List (String × V)
  rev : Option (Nat × String)
  deriving Repr, DecidableEq

/-- Membership test of a key in a Python dict (`field in self._dData`). -/
def hasField {V : Type} (d : List (String × V)) (f : String) : Bool :=
  d.any (fun p => p.1 == f)

/-- Python `del d[f]` on a dict: the key is gone afterwards. -/
def eraseField {V : Type} (d : List (String × V)) (f : String) : List (String × V) :=
  d.filter (fun p => !(p.1 == f))

/-- Python `d[f]` read access. -/
def getField {V : Type} (d : List (String × V)) (f : String) : Option V :=
  (d.find? (fun p => p.1 == f)).map Prod.snd

/-- Python `d[f] = v` on a dict. -/
def setField {V : Type} (d : List (String × V)) (f : String) (v : V) : List (String × V) :=
  if hasField d f then d.map (fun p => if p.1 == f then (f, v) else p) else d ++ [(f, v)]

/-- `field in self._dData`, where `_dData` also holds the `_rev` key. -/
def docHas {V : Type} (doc : Doc V) (f : String) : Bool :=
  if f == "_rev" then doc.rev.isSome else hasField doc.fields f

/-- `del self._dData[field]` on the full mapping including `_rev`. -/
def docErase {V : Type} (doc : Doc V) (f : String) : Doc V :=
  if f == "_rev" then ⟨doc.fields, none⟩ else ⟨eraseField doc.fields f, doc.rev⟩

/-! ## globalPrefix and Document.info (Storage.py lines 103-125, 899-938)

The module keeps one global string `__msPrefix` (initially `''`); it is the
state threaded below.  The source name is `globalPrefix`; here the suffix is
abbreviated to `Pfx`.  `Python falsy` for the optional argument means `None`
or the empty string. -/

/-- Python truth test `not v` for an optional-string argument. -/
def pyFalsy : Option String → Bool
  | none => true
  | some s => s == ""

/-- `globalPrefix(v)`: with a falsy argument it returns the current prefix
and leaves the state alone; otherwise it stores `v` (returning Python `None`).
First component is the returned value, second the new `__msPrefix`. -/
def globalPfx (v : Option String) (st : String) : Option String × String :=
  if pyFalsy v then (some st, st) else (none, v.getD "")

/-- The database-name computation of `Document.info` (lines 917-938): start
from the configured db name, append `_<postfix>` when one is passed, then
prepend the global prefix when it is non-empty. -/
def infoDb (st : String) (confDb : String) (pfix : Option String) : String :=
  let d := match pfix with
    | some p => confDb ++ "_" ++ p
    | none => confDb
  if !(st == "") then st ++ d else d

/-! ## Document.delete (Storage.py lines 428-463)

`delete` needs the primary key present, runs a single-row backend delete
(the reported `deleted` row count is the parameter `deletedCount`), returns
`False` without touching `_dData` when that count is not 1, and otherwise
removes the primary-key field and returns `True`. -/

def deleteRun {V : Type} (doc : Doc V) (primary : String) (deletedCount : Nat) :
    Except StErr (Bool × Doc V) :=
  if !(docHas doc primary) then
    .error (.storageException ["Can not delete document with no primary key"])
  else if deletedCount != 1 then
    .ok (false, doc)
  else
    .ok (true, docErase doc primary)

/-! ## connect_with (Storage.py lines 195-216)

`connect_with` is a context manager: `__init__` acquires via `_connection`
(which may raise), `__enter__` hands the connection to the body, `__exit__`
closes the connection and returns a falsy value (`False` on an exception,
`None` otherwise), so exceptions from the body always propagate.  The trace
records the `with`-block result and how many times `close` ran.  Connections
are opaque; we use `Nat` handles. -/

/-- The boolean `__exit__` returns to the interpreter: `False` when an
exception is present, `None` (falsy) otherwise — never truthy, so the body's
exception is never suppressed. -/
def exitSuppresses (excPresent : Bool) : Bool :=
  if excPresent then false else false

structure WithTrace (E A : Type) where
  result : Except (StErr ⊕ E) (Option A)
  closes : Nat

/-- Running `with connect_with(server) as con: body(con)`.  `acquire` is the
outcome of `_connection`; when it raises, the block is never entered and no
close happens.  A normal body gives `.ok (some a)`; a body exception is
suppressed (`.ok none`, the `with` statement falls through) only when
`__exit__` returns truthy, which `connect_with.__exit__` never does, so the
error propagates as `Sum.inr`.  Acquisition errors are `Sum.inl`. -/
def connectWithRun {E A : Type} (acquire : Except StErr Nat)
    (body : Nat → Except E A) : WithTrace E A :=
  match acquire with
  | .error e => ⟨.error (.inl e), 0⟩
  | .ok con =>
    match body con with
    | .ok a => ⟨.ok (some a), 1⟩
    | .error e =>
      if exitSuppresses true then ⟨.ok none, 1⟩ else ⟨.error (.inr e), 1⟩

/-! ## Document._revision (Storage.py lines 338-394)

`_revision` recomputes `self._dData['_rev']` from a content hash of the rest
of the mapping — in Python `md5(json.dumps(data)).hexdigest()` computed after
`_rev` has been removed from the dict.  The hash is kept abstract as a
parameter `h : List (String × V) → String`; every property proved below holds
for the md5-of-json instance, which only ever enters through equality and
disequality of hash strings.

`self._dChanged` is either a dict of pending field changes or the literal
`True` (whole-record replace).  Only the presence and names of changed fields
matter to the functions embedded here (the changed values are drawn from
`_dData` when the patch is sent), so the dict side carries just the key list. -/

inductive Dirty where
  | changedFields : List String → Dirty
  | whole : Dirty
  deriving Repr, DecidableEq

/-- Python truth test `not self._dChanged`: the empty dict is falsy, a
non-empty dict and the literal `True` are truthy. -/
def dirtyEmpty : Dirty → Bool
  | .changedFields l => l.isEmpty
  | .whole => false

/-- One call of `Document._revision(init)`.  Returns the boolean result
together with the document and dirty state after the call.

* `init = true` (lines 355-365): drop any existing `_rev`, store
  `'1-<hash of the remaining fields>'`, return `True`.
* `init = false` (lines 367-394): read `_rev` (a missing key is a Python
  `KeyError`), delete it, split into version and hash, rehash the remaining
  fields.  If the hash moved, store `'<version+1>-<newhash>'`, record `_rev`
  as changed unless the dirty state is the literal `True`, and return `True`.
  If the hash is unchanged, return `False` — note the deleted `_rev` key is
  never put back, so the mapping leaves this call without any `_rev` field. -/
def revisionStep {V : Type} (h : List (String × V) → String) (doc : Doc V)
    (init : Bool) (dirty : Dirty) : Except StErr (Bool × Doc V × Dirty) :=
  if init then
    .ok (true, ⟨doc.fields, some (1, h doc.fields)⟩, dirty)
  else
    match doc.rev with
    | none => .error (.keyError "_rev")
    | some (ver, oldHash) =>
      let newHash := h doc.fields
      if oldHash != newHash then
        let dirty2 := match dirty with
          | .whole => Dirty.whole
          | .changedFields l => Dirty.changedFields (l ++ ["_rev"])
        .ok (true, ⟨doc.fields, some (ver + 1, newHash)⟩, dirty2)
      else
        .ok (false, ⟨doc.fields, none⟩, dirty)

/-- The document produced by `_revision(init=True)`: same fields, revision
version 1, hash of the fields without `_rev`.  (`revisionStep … true` always
succeeds and returns exactly this document; see `revisionStep_init`.) -/
def revisionInitDoc {V : Type} (h : List (String × V) → String) (doc : Doc V) : Doc V :=
  ⟨doc.fields, some (1, h doc.fields)⟩

theorem revisionStep_init {V : Type} (h : List (String × V) → String) (doc : Doc V)
    (dirty : Dirty) :
    revisionStep h doc true dirty = .ok (true, revisionInitDoc h doc, dirty) := rfl

/-! ## Document.update (Storage.py lines 1164-1253)

The embedding follows the source line by line.  After the no-pending-changes
and missing-primary-key guards and the cursor choice, the revisioning branch
reads `sRev = self._dData['_rev']` and then calls `self.revision()` — a method
that does not exist anywhere on `Document` (the revision recomputation lives
in `_revision`), so in the revisioning case the call raises Python
`AttributeError` at line 1211 before the stored revision is ever consulted.
The non-revisioning branch runs the write; `backendReplaced` is the
`replaced` count the backend reports for it. -/

def updateRun {V : Type} (revisions : Bool) (primary : String)
    (doc : Doc V) (dirty : Dirty) (_replace : Bool) (backendReplaced : Nat) :
    Except StErr (Bool × Doc V × Dirty) :=
  if dirtyEmpty dirty then
    .ok (false, doc, dirty)
  else if !(docHas doc primary) then
    .error (.storageException ["Can not update document with no primary key"])
  else
    -- cursor built: replace when `replace` or the dirty state is the literal
    -- `True`, update otherwise (lines 1191-1202); the choice has no effect
    -- before the write runs
    if revisions then
      match doc.rev with
      | none => .error (.keyError "_rev")
      | some _ => .error (.attributeError "revision")
    else
      if backendReplaced != 1 then
        .ok (false, doc, dirty)
      else
        .ok (true, doc, .changedFields [])

/-! ## Document.insert (Storage.py lines 940-981)

`insert` normalizes the conflict mode, reinitializes the revision when
revisioning is on, sends the record, and returns `None` — without raising —
when the backend reports neither exactly one insert nor exactly one replace
(lines 972-974, matching the docstring `None if no record was created,
replaced, or updated`).  On success it captures the generated key when
`auto_id` is set and returns the primary-key value. -/

structure InsertRes (V : Type) where
  inserted : Nat
  replaced : Nat
  generated : List V
  deriving Repr, DecidableEq

def insertRun {V : Type} (h : List (String × V) → String)
    (conflict : String) (revisions autoId : Bool) (primary : String)
    (doc : Doc V) (res : InsertRes V) : Except StErr (Option V × Doc V) :=
  let _conflict := if conflict == "error" || conflict == "replace" || conflict == "update"
    then conflict else "error"
  let doc1 := if revisions then revisionInitDoc h doc else doc
  if res.inserted != 1 && res.replaced != 1 then
    .ok (none, doc1)
  else if autoId then
    match res.generated.head? with
    | none => .error (.keyError "generated_keys")
    | some k => .ok (some k, ⟨setField doc1.fields primary k, doc1.rev⟩)
  else
    match getField doc1.fields primary with
    | none => .error (.keyError primary)
    | some v => .ok (some v, doc1)

/-! ## _connection (Storage.py lines 154-192)

`_connection(server, errcnt=0)` checks the registry, then tries
`r.connect(...)`.  A driver error bumps `errcnt`; at `errcnt == 3` it raises
`StorageException(*e.args)`, otherwise it sleeps one second and recurses.
The registry is the list of registered names; the backend is modelled by
`outcomes`, giving for each attempt (indexed by the `errcnt` it runs under)
either a connection handle or the `args` of the `RqlDriverError` it raises.
The trace records the final result, how many attempts ran, and the sleep
durations in seconds.  Python recursion depth is modelled by `fuel`; from the
public entry (`errcnt = 0`, see `connectionRun`) at most two recursive calls
happen, so any fuel of at least 3 behaves like the unbounded original. -/

structure ConnTrace where
  result : Except StErr Nat
  attempts : Nat
  sleeps : List Nat
  deriving Repr

def connectionAux (servers : List String) (srv : String)
    (outcomes : Nat → Except (List String) Nat) : Nat → Nat → ConnTrace
  | 0, _ => ⟨.error (.valueError "recursion limit"), 0, []⟩
  | fuel + 1, errcnt =>
    if !(servers.contains srv) then
      ⟨.error (.valueError ("_connection: no such server " ++ srv)), 0, []⟩
    else
      match outcomes errcnt with
      | .ok con => ⟨.ok con, 1, []⟩
      | .error args =>
        if errcnt + 1 == 3 then
          ⟨.error (.storageException args), 1, []⟩
        else
          let rest := connectionAux servers srv outcomes fuel (errcnt + 1)
          ⟨rest.result, rest.attempts + 1, 1 :: rest.sleeps⟩

/-- The public call `_connection(server)`, i.e. `errcnt = 0`. -/
def connectionRun (servers : List String) (srv : String)
    (outcomes : Nat → Except (List String) Nat) : ConnTrace :=
  connectionAux servers srv outcomes 4 0

/-! ## Document.tableCreate (Storage.py lines 1021-1103)

Inside one try block: `table_create` (raises `ReqlOpFailedError`, a
`RqlRuntimeError`, when the table already exists), then one `index_create`
per declared index, dispatching on the shape of the definition — falsy value,
string, list, anything else raising `StorageException` (which the
`except RqlRuntimeError` handler at line 1098 does not catch).  A caught
`RqlRuntimeError` is logged and turns into a plain `False` return.  The
backend is modelled as the list of existing table names; `index_create` on
the freshly created table succeeds. -/

inductive IndexDef where
  | emptyDef : IndexDef
  | strDef : String → IndexDef
  | listDef : List String → IndexDef
  | badDef : IndexDef
  deriving Repr, DecidableEq

/-- The per-index loop of lines 1060-1095: any `badDef` shape raises, the
three recognized shapes each issue an `index_create` that succeeds here. -/
def createIndexes : List (String × IndexDef) → Except StErr Unit
  | [] => .ok ()
  | (_, d) :: rest =>
    match d with
    | .badDef => .error (.storageException ["Unknown index format"])
    | _ => createIndexes rest

def tableCreateRun (tables : List String) (name : String)
    (indexes : List (String × IndexDef)) : Except StErr Bool × List String :=
  if tables.contains name then
    (.ok false, tables)
  else
    let tables2 := name :: tables
    match createIndexes indexes with
    | .error e => (.error e, tables2)
    | .ok _ => (.ok true, tables2)

/-! ## Composite-index tuple translation in Document.get (Storage.py lines 758-793)

When `get` receives a tuple for a declared index it scans it for `None`
components: a second `None` raises immediately; exactly one `None` at
position `i` turns the lookup into `between(idMin, idMax, index=index)`
where `idMin`/`idMax` are copies of the tuple with position `i` replaced by
`r.minval`/`r.maxval`; no `None` passes the tuple to `get_all`.

Index keys are lists over an arbitrary linearly ordered value type `α`;
bound components extend `α` with the two RethinkDB sentinels, `r.minval`
below every value and `r.maxval` above every value, compared
lexicographically as RethinkDB compares arrays.  `between` uses the default
bounds: closed on the left, open on the right. -/

inductive BVal (α : Type) where
  | minval : BVal α
  | val : α → BVal α
  | maxval : BVal α
  deriving Repr, DecidableEq

/-- A tuple component as it sits in the Python bound list before the wildcard
position is overwritten.  `None` only ever occurs at the unique wildcard
position, which both bounds immediately overwrite, so its image is never
compared. -/
def toBVal {α : Type} : Option α → BVal α
  | some v => .val v
  | none => .minval

def bvalLt {α : Type} [LinearOrder α] : BVal α → BVal α → Bool
  | .minval, .minval => false
  | .minval, _ => true
  | .val _, .minval => false
  | .val a, .val b => decide (a < b)
  | .val _, .maxval => true
  | .maxval, _ => false

/-- Lexicographic strict comparison of two key arrays. -/
def lexLt {α : Type} [LinearOrder α] : List (BVal α) → List (BVal α) → Bool
  | [], [] => false
  | [], _ :: _ => true
  | _ :: _, [] => false
  | a :: as, b :: bs =>
    if bvalLt a b then true else if bvalLt b a then false else lexLt as bs

def lexLe {α : Type} [LinearOrder α] (x y : List (BVal α)) : Bool :=
  !(lexLt y x)

/-- Key membership in a RethinkDB `between(lo, hi)` range with the default
bounds (`lo` inclusive, `hi` exclusive). -/
def betweenB {α : Type} [LinearOrder α] (lo hi key : List (BVal α)) : Bool :=
  lexLe lo key && lexLt key hi

/-- The scan of lines 764-775: walk the tuple keeping the index of the first
`None`; a second `None` raises (the Python message reads `can't list more
than one None in an index tuple`). -/
def findNoneAux {α : Type} :
    List (Option α) → Nat → Option Nat → Except StErr (Option Nat)
  | [], _, acc => .ok acc
  | none :: rest, i, acc =>
    match acc with
    | some _ =>
      .error (.storageException ["cant list more than one None in an index tuple"])
    | none => findNoneAux rest (i + 1) (some i)
  | some _ :: rest, i, acc => findNoneAux rest (i + 1) acc

/-- The cursor form the tuple branch produces. -/
inductive Plan (α : Type) where
  | getAll : List (Option α) → Plan α
  | between : List (BVal α) → List (BVal α) → Plan α
  deriving Repr, DecidableEq

def translateTuple {α : Type} (tup : List (Option α)) : Except StErr (Plan α) :=
  match findNoneAux tup 0 none with
  | .error e => .error e
  | .ok none => .ok (.getAll tup)
  | .ok (some i) =>
    .ok (.between ((tup.map toBVal).set i .minval) ((tup.map toBVal).set i .maxval))

/-- A record's index key matches the fixed components of the query tuple:
same arity, equal at every position the tuple fixes, free at the wildcard. -/
def matchesFixed {α : Type} [DecidableEq α] (tup : List (Option α)) (key : List α) : Bool :=
  tup.length == key.length &&
    (List.zip tup key).all (fun p =>
      match p.1 with
      | none => true
      | some v => decide (v = p.2))

/-! ## Document.filter (Storage.py lines 576-639)

`filter` fetches the config, cleans the argument through the schema tree
(`clean` is the external schema service, a parameter here), and then opens
its connection with `connect_with(sServer)` — but no `sServer` is defined
anywhere in the function or module, so every call raises Python `NameError`
at line 607 before any query is built. -/

def filterRun {V : Type} (clean : List (String × V) → List (String × V))
    (obj : List (String × V)) : Except StErr (List (Doc V)) :=
  let _cleaned := clean obj
  .error (.nameError "sServer")

/-! ## Helper lemmas -/

theorem hasField_eraseField {V : Type} (d : List (String × V)) (f : String) :
    hasField (eraseField d f) f = false := by
  induction d with
  | nil => rfl
  | cons p rest ih =>
    cases hp : (p.1 == f) with
    | true => simpa [eraseField, List.filter_cons, hp] using ih
    | false =>
      simp only [eraseField, List.filter_cons, hp, Bool.not_false, if_true]
      simp [hasField, eraseField, hp]

theorem docHas_docErase {V : Type} (doc : Doc V) (f : String) :
    docHas (docErase doc f) f = false := by
  by_cases hf : (f == "_rev") = true
  · simp [docHas, docErase, hf]
  · simp only [docHas, docErase, hf, if_false, Bool.if_false_left]
    simp [hf, hasField_eraseField]

/-! ## Claim theorems -/

/-- C9: when `Document.delete` returns `False` because the backend deleted
zero rows, the in-memory field mapping is untouched — the primary-key field
in particular is still present — and the primary-key field is removed from
the instance exactly when `delete` returns `True`. -/
theorem C9_delete_frame {V : Type} (doc : Doc V) (primary : String) (cnt : Nat)
    (hpk : docHas doc primary = true) :
    (cnt = 0 → deleteRun doc primary cnt = .ok (false, doc)) ∧
    (∀ b d2, deleteRun doc primary cnt = .ok (b, d2) →
      (b = false → d2 = doc) ∧ (b = true → docHas d2 primary = false)) := by
  constructor
  · intro hc
    subst hc
    simp [deleteRun, hpk]
  · intro b d2 hrun
    by_cases hcnt : cnt = 1
    · have hr : deleteRun doc primary cnt = .ok (true, docErase doc primary) := by
        simp [deleteRun, hpk, hcnt]
      rw [hr] at hrun
      obtain ⟨hb2, hd2⟩ : true = b ∧ docErase doc primary = d2 := by
        simpa using hrun
      refine ⟨fun hb => ?_, fun _ => ?_⟩
      · rw [← hb2] at hb
        cases hb
      · rw [← hd2]
        exact docHas_docErase doc primary
    · have hr : deleteRun doc primary cnt = .ok (false, doc) := by
        simp [deleteRun, hpk, hcnt]
      rw [hr] at hrun
      obtain ⟨hb2, hd2⟩ : false = b ∧ doc = d2 := by
        simpa using hrun
      refine ⟨fun _ => hd2.symm, fun hb => ?_⟩
      rw [← hb2] at hb
      cases hb

/-- C9 witness: a concrete document with its primary key, zero rows deleted:
`delete` returns `False` and the mapping (primary key included) is intact. -/
theorem C9_delete_frame_w :
    deleteRun (V := Int) ⟨[("_id", 4), ("a", 2)], none⟩ "_id" 0 =
      .ok (false, ⟨[("_id", 4), ("a", 2)], none⟩) :=
  (C9_delete_frame ⟨[("_id", 4), ("a", 2)], none⟩ "_id" 0 (by decide)).1 rfl

/-- C10: `globalPrefix` called with a falsy argument (`None` / no argument /
the empty string) returns the current prefix and does not modify it; hence a
prefix once set non-empty can never be reset to empty through this interface,
and `Document.info` prepends the prefix to every database name it resolves. -/
theorem C10_globalPfx (v : Option String) (st confDb : String) (pfix : Option String)
    (hset : st ≠ "") :
    (pyFalsy v = true → globalPfx v st = (some st, st)) ∧
    (globalPfx v st).2 ≠ "" ∧
    infoDb st confDb pfix = st ++ infoDb "" confDb pfix := by
  refine ⟨?_, ?_, ?_⟩
  · intro hv
    simp [globalPfx, hv]
  · by_cases hf : pyFalsy v = true
    · simpa [globalPfx, hf] using hset
    · cases v with
      | none => simp [pyFalsy] at hf
      | some s =>
        simp [pyFalsy] at hf
        simp [globalPfx, pyFalsy, hf]
  · simp [infoDb, hset]

/-- C10 witness: with the prefix set to `test_`, a further call carrying the
empty string returns `test_` and leaves it in place, and `info` resolves the
configured db `Test` with postfix `dev` to `test_` prepended. -/
theorem C10_globalPfx_w :
    (pyFalsy (some "") = true → globalPfx (some "") "test_" = (some "test_", "test_")) ∧
    (globalPfx (some "") "test_").2 ≠ "" ∧
    infoDb "test_" "Test" (some "dev") = "test_" ++ infoDb "" "Test" (some "dev") :=
  C10_globalPfx (some "") "test_" "Test" (some "dev") (by decide)

/-- C5: whenever `connect_with` acquires a connection, `__exit__` closes it
exactly once on every exit path, and an exception raised by the operation in
the `with` body still propagates to the caller (alongside, its normal result
is delivered unchanged). -/
theorem C5_connect_with {E A : Type} (acquire : Except StErr Nat) (con : Nat)
    (body : Nat → Except E A) (hacq : acquire = .ok con) :
    (connectWithRun acquire body).closes = 1 ∧
    (∀ e, body con = .error e → (connectWithRun acquire body).result = .error (.inr e)) ∧
    (∀ a, body con = .ok a → (connectWithRun acquire body).result = .ok (some a)) := by
  subst hacq
  unfold connectWithRun
  cases hb : body con with
  | ok a => simp [hb, exitSuppresses]
  | error e => simp [hb, exitSuppresses]

/-- C5 witness: an acquired connection whose body raises: closed once, the
exception surfaces. -/
theorem C5_connect_with_w :
    (connectWithRun (A := Nat) (.ok 0) (fun _ => .error "boom")).closes = 1 ∧
    (connectWithRun (A := Nat) (.ok 0) (fun _ => .error "boom")).result = .error (.inr "boom") :=
  ⟨(C5_connect_with (.ok 0) 0 (fun _ => .error "boom") rfl).1,
   (C5_connect_with (.ok 0) 0 (fun _ => .error "boom") rfl).2.1 "boom" rfl⟩

/-- C8: the claim says the standalone `filter` scans the table and returns
the matching records.  In the code every `filter` call raises Python
`NameError` instead: line 607 opens the connection with `connect_with(sServer)`
but no `sServer` is defined anywhere in the function or the module (the other
methods use `dInfo['server']`).  This theorem evaluates the embedded `filter`
at a concrete equality mapping and shows the `NameError`. -/
theorem C8_filter_nameError :
    filterRun (V := Int) id [("a", 1)] = .error (.nameError "sServer") := rfl

/-- C2: the claim says a revisioned, dirty `update` with a changed hash
checks the backend's stored revision and fails with a conflict error on
mismatch.  In the code the check is unreachable: line 1211 calls
`self.revision()`, a method that does not exist on `Document` (the
recomputation lives in `_revision`), so every revisioned update raises Python
`AttributeError` first.  This theorem evaluates the embedded `update` on a
dirty revisioned document that carries a primary key and a revision. -/
theorem C2_update_attributeError :
    updateRun (V := Int) true "_id" ⟨[("_id", 1), ("a", 2)], some (1, "aabb")⟩
      (.changedFields ["a"]) false 1 = .error (.attributeError "revision") := rfl

/-- C1: the claim says an `update` whose content hash did not change returns
`False` and leaves the revision field unchanged.  Besides `update` itself
dying earlier on the `self.revision()` typo (see `C2_update_attributeError`),
the recomputation `_revision` violates the claim on its own: it deletes
`_rev` from the mapping (line 372) and, when the rehash comes out unchanged,
returns `False` without ever putting it back (line 394), so the document
leaves the call with no revision field at all.  Evaluated here on a document
whose stored hash equals the recomputed hash: result `False`, `rev` gone. -/
theorem C1_revision_deleted :
    revisionStep (V := Int) (fun _ => "h") ⟨[("a", 2)], some (1, "h")⟩ false
      (.changedFields ["a"]) =
      .ok (false, ⟨[("a", 2)], none⟩, .changedFields ["a"]) := rfl

/-- C6: the claim says `insert` fails with a `StorageError` when the backend
reports zero rows affected.  It does not raise: lines 972-974 return `None`
(as the docstring documents).  Evaluated on a backend response with
`inserted = 0`, `replaced = 0`: the call returns `None`, no exception. -/
theorem C6_insert_counterexample :
    insertRun (V := Int) (fun _ => "h") "error" false true "_id"
      ⟨[("a", 2)], none⟩ ⟨0, 0, []⟩ = .ok (none, ⟨[("a", 2)], none⟩) := rfl

/-- C6 amended: `insert` returns `None` — raising nothing — whenever the
backend reports neither exactly one inserted row nor exactly one replaced
row, leaving the instance as it stood after the revision initialisation. -/
theorem C6_insert_zero_rows {V : Type} (h : List (String × V) → String)
    (conflict : String) (revisions autoId : Bool) (primary : String)
    (doc : Doc V) (res : InsertRes V)
    (h1 : res.inserted ≠ 1) (h2 : res.replaced ≠ 1) :
    insertRun h conflict revisions autoId primary doc res =
      .ok (none, if revisions then revisionInitDoc h doc else doc) := by
  unfold insertRun
  simp [h1, h2, revisionInitDoc]

/-- C6 amended witness: a revisioned insert over a zero-effect backend
response returns `None` with the freshly revisioned document. -/
theorem C6_insert_zero_rows_w :
    insertRun (V := Int) (fun _ => "h") "error" true true "_id"
      ⟨[("a", 2)], none⟩ ⟨0, 0, []⟩ =
      .ok (none, if true then revisionInitDoc (V := Int) (fun _ => "h") ⟨[("a", 2)], none⟩
        else ⟨[("a", 2)], none⟩) :=
  C6_insert_zero_rows (fun _ => "h") "error" true true "_id"
    ⟨[("a", 2)], none⟩ ⟨0, 0, []⟩ (by decide) (by decide)

theorem createIndexes_ok (indexes : List (String × IndexDef))
    (hwf : ∀ p ∈ indexes, p.2 ≠ IndexDef.badDef) : createIndexes indexes = .ok () := by
  induction indexes with
  | nil => rfl
  | cons p rest ih =>
    have hp : p.2 ≠ IndexDef.badDef := hwf p (by simp)
    have hrest : ∀ q ∈ rest, q.2 ≠ IndexDef.badDef := fun q hq => hwf q (by simp [hq])
    cases p with
    | mk n d =>
      cases d with
      | emptyDef => simpa [createIndexes] using ih hrest
      | strDef s => simpa [createIndexes] using ih hrest
      | listDef l => simpa [createIndexes] using ih hrest
      | badDef => exact absurd rfl hp

/-- C4: for a registered server whose connection attempts keep failing with a
driver error, `_connection` makes exactly three attempts with a one-second
blocking sleep between consecutive attempts (so two sleeps), then raises a
`StorageException` carrying the args of the underlying driver error, and no
further attempt happens — the trace is the same whatever `outcomes` holds
beyond index 2. -/
theorem C4_connection_retry (servers : List String) (srv : String)
    (outcomes : Nat → Except (List String) Nat) (a0 a1 a2 : List String)
    (hs : servers.contains srv = true)
    (h0 : outcomes 0 = .error a0) (h1 : outcomes 1 = .error a1)
    (h2 : outcomes 2 = .error a2) :
    connectionRun servers srv outcomes =
      ⟨.error (.storageException a2), 3, [1, 1]⟩ := by
  have hmem : srv ∈ servers := by simpa using hs
  unfold connectionRun
  simp [connectionAux, hmem, h0, h1, h2]

/-- C4 witness: a registered server failing every attempt with args `["e"]`:
three attempts, sleeps `[1, 1]`, then `StorageException ["e"]`. -/
theorem C4_connection_retry_w :
    connectionRun ["default"] "default" (fun _ => .error ["e"]) =
      ⟨.error (.storageException ["e"]), 3, [1, 1]⟩ :=
  C4_connection_retry ["default"] "default" (fun _ => .error ["e"]) ["e"] ["e"] ["e"]
    (by decide) rfl rfl rfl

/-- C7: `tableCreate` treats the backend `table already exists` error as a
plain `False` return: on a backend without the table and with well-formed
index definitions, the first call returns `True` (registering the table), the
second call on the resulting backend returns `False`, and neither call
raises. -/
theorem C7_tableCreate_twice (tables : List String) (name : String)
    (indexes : List (String × IndexDef))
    (hmem : tables.contains name = false)
    (hwf : ∀ p ∈ indexes, p.2 ≠ IndexDef.badDef) :
    (tableCreateRun tables name indexes).1 = .ok true ∧
    (tableCreateRun tables name indexes).2 = name :: tables ∧
    (tableCreateRun (tableCreateRun tables name indexes).2 name indexes).1 = .ok false := by
  have hci := createIndexes_ok indexes hwf
  have hnm : name ∉ tables := by simpa using hmem
  have h1 : tableCreateRun tables name indexes = (.ok true, name :: tables) := by
    simp [tableCreateRun, hnm, hci]
  refine ⟨by rw [h1], by rw [h1], ?_⟩
  rw [h1]
  simp [tableCreateRun, List.contains_cons]

/-- C7 witness: creating table `tbl` with one single-field index twice on an
empty backend: `True` then `False`, no exception. -/
theorem C7_tableCreate_twice_w :
    (tableCreateRun [] "tbl" [("i1", .strDef "f")]).1 = .ok true ∧
    (tableCreateRun [] "tbl" [("i1", .strDef "f")]).2 = ["tbl"] ∧
    (tableCreateRun (tableCreateRun [] "tbl" [("i1", .strDef "f")]).2 "tbl"
      [("i1", .strDef "f")]).1 = .ok false :=
  C7_tableCreate_twice [] "tbl" [("i1", .strDef "f")] (by decide) (by decide)

theorem findNoneAux_append_somes {α : Type} (fs : List α) (rest : List (Option α))
    (i : Nat) (acc : Option Nat) :
    findNoneAux (fs.map some ++ rest) i acc = findNoneAux rest (i + fs.length) acc := by
  induction fs generalizing i with
  | nil => simp
  | cons f fs ih =>
    have h1 : findNoneAux ((f :: fs).map some ++ rest) i acc
        = findNoneAux rest (i + 1 + fs.length) acc := ih (i + 1)
    rw [h1]
    congr 1
    simp [Nat.add_comm, Nat.add_assoc, Nat.add_left_comm]

theorem findNoneAux_acc_some {α : Type} (tup : List (Option α)) (i j : Nat)
    (h : 1 ≤ tup.countP Option.isNone) :
    findNoneAux tup i (some j) =
      .error (.storageException ["cant list more than one None in an index tuple"]) := by
  induction tup generalizing i with
  | nil => simp at h
  | cons o rest ih =>
    cases o with
    | none => rfl
    | some v =>
      refine ih (i + 1) ?_
      rw [List.countP_cons_of_neg] at h
      · exact h
      · simp

theorem findNoneAux_two_nones {α : Type} (tup : List (Option α)) (i : Nat)
    (h : 2 ≤ tup.countP Option.isNone) :
    findNoneAux tup i none =
      .error (.storageException ["cant list more than one None in an index tuple"]) := by
  induction tup generalizing i with
  | nil => simp at h
  | cons o rest ih =>
    cases o with
    | some v =>
      refine ih (i + 1) ?_
      rw [List.countP_cons_of_neg] at h
      · exact h
      · simp
    | none =>
      have hrest : 1 ≤ rest.countP Option.isNone := by
        rw [List.countP_cons_of_pos] at h
        · omega
        · simp
      exact findNoneAux_acc_some rest (i + 1) i hrest

theorem set_append_length {β : Type} (as : List β) (x y : β) :
    (as ++ [x]).set as.length y = as ++ [y] := by
  induction as with
  | nil => rfl
  | cons a as ih => simp [List.set, ih]

theorem translateTuple_trailing {α : Type} (fs : List α) :
    translateTuple (fs.map some ++ [none]) =
      .ok (.between (fs.map BVal.val ++ [BVal.minval]) (fs.map BVal.val ++ [BVal.maxval])) := by
  unfold translateTuple
  rw [findNoneAux_append_somes]
  simp only [findNoneAux, Nat.zero_add]
  have hmap : (fs.map some ++ [none]).map toBVal = fs.map BVal.val ++ [BVal.minval] := by
    simp [toBVal, Function.comp]
  have hlen : fs.length = (fs.map (BVal.val (α := α))).length := by simp
  rw [hmap, hlen, set_append_length, set_append_length]

theorem bvalLt_irrefl {α : Type} [LinearOrder α] (a : BVal α) : bvalLt a a = false := by
  cases a <;> simp [bvalLt]

theorem lexLt_cons_same {α : Type} [LinearOrder α] (a : BVal α) (as bs : List (BVal α)) :
    lexLt (a :: as) (a :: bs) = lexLt as bs := by
  simp [lexLt, bvalLt_irrefl]

theorem betweenB_cons_same {α : Type} [LinearOrder α] (a : BVal α)
    (lo hi key : List (BVal α)) :
    betweenB (a :: lo) (a :: hi) (a :: key) = betweenB lo hi key := by
  simp [betweenB, lexLe, lexLt_cons_same]

theorem betweenB_trailing {α : Type} [LinearOrder α] (fs ks : List α)
    (hlen : ks.length = fs.length + 1) :
    betweenB (fs.map BVal.val ++ [BVal.minval]) (fs.map BVal.val ++ [BVal.maxval])
        (ks.map BVal.val)
      = matchesFixed (fs.map some ++ [none]) ks := by
  induction fs generalizing ks with
  | nil =>
    match ks with
    | [] => simp at hlen
    | k :: k2 :: ks2 => simp at hlen
    | [k] => simp [betweenB, lexLe, lexLt, bvalLt, matchesFixed]
  | cons f fs ih =>
    match ks with
    | [] => simp at hlen
    | k :: ks2 =>
      have hlen2 : ks2.length = fs.length + 1 := by simpa using hlen
      rcases lt_trichotomy k f with hkf | hkf | hkf
      · have hk1 : bvalLt (BVal.val k) (BVal.val f) = true := by
          simp only [bvalLt, decide_eq_true_eq]
          exact hkf
        have hne : ¬(f = k) := ne_of_gt hkf
        simp [betweenB, lexLe, lexLt, hk1, matchesFixed, hne]
      · subst hkf
        simp only [List.map_cons, List.cons_append]
        rw [betweenB_cons_same, ih ks2 hlen2]
        simp [matchesFixed, hlen2]
      · have hk1 : bvalLt (BVal.val k) (BVal.val f) = false := by
          simp only [bvalLt, decide_eq_false_iff_not]
          exact not_lt.mpr (le_of_lt hkf)
        have hk2 : bvalLt (BVal.val f) (BVal.val k) = true := by
          simp only [bvalLt, decide_eq_true_eq]
          exact hkf
        have hne : ¬(f = k) := ne_of_lt hkf
        simp [betweenB, lexLe, lexLt, hk1, hk2, matchesFixed, hne]

/-- C3 counterexample: for the two-component index query tuple
`(WILDCARD, 7)` the code issues `between((minval, 7), (maxval, 7))`, but the
record with index key `(3, 999)` falls inside that range (the comparison is
decided at the first position, where `minval < 3 < maxval`) while its second
component does not match the fixed value `7` — so the result set is strictly
larger than `the records whose indexed fields match the fixed components`,
refuting the claimed equality. -/
theorem C3_tuple_range_counterexample :
    translateTuple [none, some (7 : Int)] =
      .ok (.between [BVal.minval, BVal.val 7] [BVal.maxval, BVal.val 7]) ∧
    betweenB [BVal.minval, BVal.val (7 : Int)] [BVal.maxval, BVal.val 7]
      [BVal.val 3, BVal.val 999] = true ∧
    matchesFixed [none, some (7 : Int)] [3, 999] = false :=
  ⟨rfl, by decide, by decide⟩

/-- C3 amended: more than one wildcard in the tuple fails with the
`QueryError`; with exactly one wildcard the code issues the between-bounds
range query with the minimum/maximum sentinel at the open position and the
other positions fixed — but the result set equals exactly the records whose
indexed fields match the fixed components only when the wildcard is the LAST
tuple component (positions after an interior wildcard are unconstrained,
see the counterexample).  Stated here for a trailing wildcard: the translated
plan is the claimed `between` pair, and a key of the right arity lies in the
range exactly when it matches every fixed component. -/
theorem C3_tuple_range_amended {α : Type} [LinearOrder α] (fs : List α)
    (tup : List (Option α)) (htup : tup = fs.map some ++ [none]) :
    translateTuple tup =
      .ok (.between (fs.map BVal.val ++ [BVal.minval]) (fs.map BVal.val ++ [BVal.maxval])) ∧
    (∀ ks : List α, ks.length = tup.length →
      betweenB (fs.map BVal.val ++ [BVal.minval]) (fs.map BVal.val ++ [BVal.maxval])
        (ks.map BVal.val) = matchesFixed tup ks) ∧
    (∀ tup2 : List (Option α), 2 ≤ tup2.countP Option.isNone →
      translateTuple tup2 =
        .error (.storageException ["cant list more than one None in an index tuple"])) := by
  subst htup
  refine ⟨translateTuple_trailing fs, ?_, ?_⟩
  · intro ks hk
    exact betweenB_trailing fs ks (by simpa using hk)
  · intro tup2 h2
    unfold translateTuple
    rw [findNoneAux_two_nones tup2 0 h2]

/-- C3 amended witness: the spec's own example, index over `(a, b)` and query
`(5, WILDCARD)`: the key `(5, 9)` is in the translated range and matches, as
the amended equality demands. -/
theorem C3_tuple_range_amended_w :
    betweenB ([(5 : Int)].map BVal.val ++ [BVal.minval])
        ([(5 : Int)].map BVal.val ++ [BVal.maxval]) ([(5 : Int), 9].map BVal.val)
      = matchesFixed ([(5 : Int)].map some ++ [none]) [5, 9] :=
  (C3_tuple_range_amended [(5 : Int)] ([(5 : Int)].map some ++ [none]) rfl).2.1 [5, 9] rfl

end Plib
